import Mathlib

/-!
# MySQLCXX: connection pool, query pipeline and error slot

A shallow embedding of `src/src/mysqlcxx.cpp` (with the types of
`src/include/mysqlcxx.h`).  Strings are lists of characters, the process-wide
variables are passed explicitly, and what the MySQL client library answers
(escaping, execution, result sets, error texts, clock samples) is an explicit
input of every operation.  The `u64` counters and the `u32` placeholder counter
are natural numbers reduced modulo their width at every increment; the cursor
and `tries` never exceed `POOL_SIZE + 1` and are plain natural numbers.  The two
`f64` fields of a connection are exact rationals.
-/

namespace mysqlcxx

/-! ## Connection selection (the head of `query`, lines 186-200) -/

/-- The constant `POOL_SIZE` of the source. -/
def POOL_SIZE : Nat := 16

/-- Local state of the selection code of `query`: the locals `c` and `tries`
and the shared cursor `current_index`. -/
structure Selection where
  c : Nat
  current_index : Nat
  tries : Nat
  deriving DecidableEq, Repr

/-- The `if (current_index >= POOL_SIZE) ... else ...` statement that opens
`query`. -/
def select_init (current_index : Nat) : Selection :=
  if current_index ≥ POOL_SIZE then
    { c := 0, current_index := 0, tries := 0 }
  else
    { c := current_index, current_index := current_index + 1, tries := 0 }

/-- Body of the probe loop: `c = ++current_index; if (current_index >= POOL_SIZE)
c = current_index = 0; tries++`. -/
def probe_body (s : Selection) : Selection :=
  if s.current_index + 1 ≥ POOL_SIZE then
    { c := 0, current_index := 0, tries := s.tries + 1 }
  else
    { c := s.current_index + 1, current_index := s.current_index + 1, tries := s.tries + 1 }

/-- The loop `while (tries < POOL_SIZE + 1 && connections[c].is_busy)`.  The
first argument bounds the number of iterations; `busy c` is the flag
`connections[c].is_busy`, read only when the left conjunct holds.  Returns the
state on leaving the loop and the indices `c` with which `connections[c]` was
read, in order. -/
def probe_loop (busy : Nat → Bool) : Nat → Selection → Selection × List Nat
  | 0, s => (s, [])
  | fuel + 1, s =>
    if s.tries < POOL_SIZE + 1 then
      if busy s.c then
        let r := probe_loop busy fuel (probe_body s)
        (r.1, s.c :: r.2)
      else (s, [s.c])
    else (s, [])

/-- Lines 186-200 of `query`: the connection index chosen, the cursor left
behind, the number of loop iterations (`tries`) and the indices read.
`POOL_SIZE + 1` iterations always suffice, and more change nothing. -/
def select (busy : Nat → Bool) (current_index : Nat) : Selection × List Nat :=
  probe_loop busy (POOL_SIZE + 1) (select_init current_index)

/-- Selections made by `n` consecutive `query` calls while no connection is
busy, together with the cursor after the last call. -/
def select_run : Nat → Nat → List Nat × Nat
  | 0, cur => ([], cur)
  | n + 1, cur =>
    let s := (select (fun _ => false) cur).1
    let r := select_run n s.current_index
    (s.c :: r.1, r.2)

/-! ## Value model (`mysqlcxx.h`) -/

/-- Exceptions that `std::stoi`, `std::stol`, `std::stoll`, `std::stof` and
`std::stod` throw. -/
inductive StdException where
  | invalid_argument
  | out_of_range
  deriving DecidableEq, Repr

/-- Floating point is not interpreted: the carrier `F` of `float`/`double`
values, the conversions `std::stof`/`std::stod` and the text that `operator<<`
writes for them are taken from the C++ library as they are. -/
structure FloatLib (F : Type) where
  stof : List Char → Except StdException F
  stod : List Char → Except StdException F
  put_f32 : F → List Char
  put_f64 : F → List Char

/-- The variant `SQL_PARAM_TYPE`, alternatives in the order of the header. -/
inductive SQL_PARAM_TYPE (F : Type) where
  | f32 (v : F)
  | f64 (v : F)
  | u32 (v : Nat)
  | u64 (v : Nat)
  | i64 (v : Int)
  | i32 (v : Int)
  | i16 (v : Int)
  | bool (v : Bool)
  | string (v : List Char)
  deriving DecidableEq, Repr

/-- A `std::map<std::string, SQL_PARAM_TYPE>`, as an association list with one
entry per key. -/
abbrev SQL_ROW (F : Type) := List (List Char × SQL_PARAM_TYPE F)

abbrev SQL_TABLE (F : Type) := List (SQL_ROW F)

abbrev QUERY_PARAMS (F : Type) := List (SQL_PARAM_TYPE F)

/-- The assignment `this_row[key] = value` on a `std::map`. -/
def SQL_ROW.assign {F : Type} : SQL_ROW F → List Char → SQL_PARAM_TYPE F → SQL_ROW F
  | [], key, value => [(key, value)]
  | (k, v) :: rest, key, value =>
    if k = key then (k, value) :: rest else (k, v) :: SQL_ROW.assign rest key value

/-- The struct `SQLCONN` without its session handle and mutex.  The counters
are `u64`; the two `f64` fields are held as exact rationals. -/
structure SQLCONN where
  queries_processed : Nat := 0
  queries_errored : Nat := 0
  avg_query_length : ℚ := 0
  busy_time : ℚ := 0
  is_busy : Bool := false
  deriving DecidableEq

instance : Inhabited SQLCONN := ⟨{}⟩

/-- The struct `SQLCONN_LAST_ERROR`. -/
structure SQLCONN_LAST_ERROR where
  thread_id : Nat := 0
  message : List Char := []
  deriving DecidableEq, Repr

/-- The process-wide variables `processed`, `errored` and `last_error`. -/
structure Globals where
  processed : Nat := 0
  errored : Nat := 0
  last_error : SQLCONN_LAST_ERROR := {}
  deriving DecidableEq, Repr

/-- The increment `x++` of a `u64`. -/
def incr_u64 (x : Nat) : Nat := (x + 1) % 2 ^ 64

/-- What `std::string(const char*)` and `c_str()` keep of a buffer: the
characters before the first NUL. -/
def c_str (s : List Char) : List Char := s.takeWhile (fun ch => ch != Char.ofNat 0)

/-! ## `get_last_error` (lines 87-94) -/

/-- The function `get_last_error`: the value returned and the globals after
the call. -/
def get_last_error (g : Globals) : Option SQLCONN_LAST_ERROR × Globals :=
  if g.last_error.message.isEmpty then (none, g)
  else (some g.last_error, { g with last_error := { g.last_error with message := [] } })

/-! ## The client library as seen by `real_query` -/

/-- Column types that the `switch` of `real_query` names; every other member of
`enum_field_types` is `MYSQL_TYPE_OTHER` with its numeric code. -/
inductive enum_field_types where
  | MYSQL_TYPE_TINY
  | MYSQL_TYPE_SHORT
  | MYSQL_TYPE_INT24
  | MYSQL_TYPE_LONG
  | MYSQL_TYPE_LONGLONG
  | MYSQL_TYPE_FLOAT
  | MYSQL_TYPE_DOUBLE
  | MYSQL_TYPE_STRING
  | MYSQL_TYPE_VAR_STRING
  | MYSQL_TYPE_BLOB
  | MYSQL_TYPE_OTHER (code : Nat)
  deriving DecidableEq, Repr

/-- The members of `MYSQL_FIELD` that `real_query` reads; `name = none` is a
null pointer. -/
structure MYSQL_FIELD where
  name : Option (List Char)
  type : enum_field_types
  flags : Nat := 0
  deriving DecidableEq, Repr

/-- One fetched row: a cell is `none` for SQL NULL (a null `char*`). -/
abbrev MYSQL_ROW := List (Option (List Char))

/-- A result set as streamed by `mysql_use_result`: `mysql_fetch_fields` gives
`fields`, `mysql_num_fields` their number, `mysql_fetch_row` the rows in
order and then null. -/
structure MYSQL_RES where
  fields : List MYSQL_FIELD
  rows : List MYSQL_ROW
  deriving DecidableEq, Repr

/-- Answer of the server to one statement. -/
inductive Reply where
  /-- The call `mysql_query` returned non-zero. -/
  | failed
  /-- The call `mysql_query` returned 0 and `mysql_use_result` returned null. -/
  | no_result
  /-- The call `mysql_query` returned 0 and `mysql_use_result` returned a set. -/
  | result (r : MYSQL_RES)
  deriving DecidableEq, Repr

/-- Everything outside the program that one call of `real_query` observes. -/
structure Client where
  /-- The value of `std::this_thread::get_id()`. -/
  thread_id : Nat
  /-- The call `mysql_real_escape_string`: `none` stands for `(size_t)-1`. -/
  escape : List Char → Option (List Char)
  /-- The text returned by `mysql_error(&conn.connection)`. -/
  error : List Char
  /-- The calls `mysql_query` and `mysql_use_result` on the submitted text. -/
  execute : List Char → Reply
  /-- The sample `busy_start = time_fractional()`. -/
  busy_start : ℚ
  /-- The sample of `time_fractional()` on line 319. -/
  busy_end : ℚ
  /-- The sample of `time_fractional()` on line 321. -/
  avg_end : ℚ

/-! ## `real_query`, stage 1: rendering and escaping (lines 208-235) -/

/-- Decimal text of an integer, as `operator<<` writes it. -/
def put_int (v : Int) : List Char :=
  if v < 0 then '-' :: Nat.toDigits 10 v.natAbs else Nat.toDigits 10 v.toNat

/-- The statement `v << p` inside the visitor: the text of one parameter.  A
`bool` is written without `boolalpha`. -/
def render {F : Type} (lib : FloatLib F) : SQL_PARAM_TYPE F → List Char
  | .f32 v => lib.put_f32 v
  | .f64 v => lib.put_f64 v
  | .u32 v => Nat.toDigits 10 v
  | .u64 v => Nat.toDigits 10 v
  | .i64 v => put_int v
  | .i32 v => put_int v
  | .i16 v => put_int v
  | .bool v => if v then ['1'] else ['0']
  | .string v => v

/-- The loop over `query_params`: a parameter whose escaping fails adds nothing
to `escaped_parameters`, the others add the escaped buffer read as a C string. -/
def escape_params {F : Type} (lib : FloatLib F) (cl : Client) :
    QUERY_PARAMS F → List (List Char)
  | [] => []
  | p :: rest =>
    match cl.escape (render lib p) with
    | some out => c_str out :: escape_params lib cl rest
    | none => escape_params lib cl rest

/-! ## `real_query`, stage 2: placeholder substitution (lines 237-249) -/

/-- The loop over `query_format`.  The counter `param` is a `u32`, so `param + 1`
and `param++` are reduced modulo `2 ^ 32`; `escaped_parameters.size() - 1` is
`size_t` arithmetic.  The third argument is `query_string` built so far. -/
def substitute_loop (escaped_parameters : List (List Char)) :
    List Char → Nat → List Char → List Char
  | [], _, query_string => query_string
  | v :: rest, param, query_string =>
    if v = '?' ∧ escaped_parameters.length ≥ (param + 1) % 2 ^ 32 then
      substitute_loop escaped_parameters rest
        (if param ≠ (escaped_parameters.length + (2 ^ 64 - 1)) % 2 ^ 64
          then (param + 1) % 2 ^ 32 else param)
        (query_string ++ escaped_parameters.getD param [])
    else
      substitute_loop escaped_parameters rest param (query_string ++ [v])

/-- Lines 237-249: the statement text built from the template. -/
def substitute (query_format : List Char) (escaped_parameters : List (List Char)) :
    List Char :=
  substitute_loop escaped_parameters query_format 0 []

/-- The substitution as the specification words it: the `k`-th placeholder
(counted from 0) becomes parameter `min k (n - 1)`, every other character is
copied.  The second argument is the number of placeholders already passed. -/
def spec_substitute (ps : List (List Char)) : List Char → Nat → List Char
  | [], _ => []
  | v :: rest, k =>
    if v = '?' then ps.getD (min k (ps.length - 1)) [] ++ spec_substitute ps rest (k + 1)
    else v :: spec_substitute ps rest k

/-! ## `real_query`, stage 4: decoding (lines 261-307) -/

/-- The C function `isspace` in the "C" locale. -/
def isspace (ch : Char) : Bool :=
  ch = ' ' || (9 ≤ ch.toNat && ch.toNat ≤ 13)

/-- Value of a run of decimal digits, most significant first. -/
def digits_value (ds : List Char) : Nat :=
  ds.foldl (fun acc d => 10 * acc + (d.toNat - '0'.toNat)) 0

/-- Base-10 `strtol` without its range clamp: leading white space, an optional
sign, then the longest run of digits; `none` when there is no digit. -/
def strtol10 (s : List Char) : Option Int :=
  let s1 := s.dropWhile isspace
  let neg := s1.head? = some '-'
  let s2 := if s1.head? = some '-' ∨ s1.head? = some '+' then s1.tail else s1
  let ds := s2.takeWhile Char.isDigit
  if ds = [] then none
  else some (if neg then - (digits_value ds : Int) else (digits_value ds : Int))

/-- Shared shape of `std::stoi`, `std::stol` and `std::stoll` for a signed
result type of `w` bits: `invalid_argument` when nothing converts,
`out_of_range` when the value does not fit. -/
def sto_signed (w : Nat) (s : List Char) : Except StdException Int :=
  match strtol10 s with
  | none => .error .invalid_argument
  | some v =>
    if v < - (2 : Int) ^ (w - 1) ∨ v > (2 : Int) ^ (w - 1) - 1 then .error .out_of_range
    else .ok v

/-- The function `std::stoi` (32-bit `int`). -/
def stoi (s : List Char) : Except StdException Int := sto_signed 32 s

/-- The function `std::stol` (64-bit `long`, the LP64 data model). -/
def stol (s : List Char) : Except StdException Int := sto_signed 64 s

/-- The function `std::stoll` (64-bit `long long`). -/
def stoll (s : List Char) : Except StdException Int := sto_signed 64 s

/-- A `static_cast` to the signed integer type of `w` bits. -/
def cast_signed (w : Nat) (v : Int) : Int :=
  (v + 2 ^ (w - 1)) % 2 ^ w - 2 ^ (w - 1)

/-- The `switch (fields[field_count].type)`: value stored for one cell. -/
def decode_cell {F : Type} (lib : FloatLib F) (type : enum_field_types)
    (field_value : List Char) : Except StdException (SQL_PARAM_TYPE F) :=
  match type with
  | .MYSQL_TYPE_TINY | .MYSQL_TYPE_SHORT =>
    (stoi field_value).map (fun v => .i16 (cast_signed 16 v))
  | .MYSQL_TYPE_INT24 => (stoi field_value).map (fun v => .i32 (cast_signed 32 v))
  | .MYSQL_TYPE_LONG => (stol field_value).map (fun v => .i64 (cast_signed 64 v))
  | .MYSQL_TYPE_LONGLONG => (stoll field_value).map (fun v => .i64 (cast_signed 64 v))
  | .MYSQL_TYPE_FLOAT => (lib.stof field_value).map .f32
  | .MYSQL_TYPE_DOUBLE => (lib.stod field_value).map .f64
  | _ => .ok (.string field_value)

/-- The loop `while (field_count < mysql_num_fields(result_set))` over one
fetched row: the fields still to do, the cells still to read, `this_row`. -/
def decode_fields {F : Type} (lib : FloatLib F) :
    List MYSQL_FIELD → MYSQL_ROW → SQL_ROW F → Except StdException (SQL_ROW F)
  | [], _, this_row => .ok this_row
  | f :: fields, row, this_row =>
    let field_name := f.name.getD []
    let field_value := (row.headD none).getD []
    match decode_cell lib f.type field_value with
    | .error e => .error e
    | .ok value => decode_fields lib fields row.tail (this_row.assign field_name value)

/-- The loop `while ((row = mysql_fetch_row(result_set)))`: the rows still to
fetch and `rv`. -/
def decode_rows {F : Type} (lib : FloatLib F) (fields : List MYSQL_FIELD) :
    List MYSQL_ROW → SQL_TABLE F → Except StdException (SQL_TABLE F)
  | [], rv => .ok rv
  | row :: rows, rv =>
    if fields.length = 0 then .ok rv
    else
      match decode_fields lib fields row [] with
      | .error e => .error e
      | .ok this_row => decode_rows lib fields rows (rv ++ [this_row])

/-! ## `real_query` (lines 206-325) -/

/-- Result of one call of `real_query`: the connection and the globals after
it, the table returned or the exception that left the function, and two ghost
fields: the text handed to `mysql_query` (if any) and the value of
`conn.queries_processed` by which lines 320-321 divided (if they ran). -/
structure Outcome (F : Type) where
  conn : SQLCONN
  g : Globals
  ret : Except StdException (SQL_TABLE F)
  submitted : Option (List Char)
  divisor : Option Nat

/-- Lines 319-322: busy time, running mean, busy flag. -/
def complete (cl : Client) (conn : SQLCONN) : SQLCONN :=
  let avg := conn.avg_query_length - conn.avg_query_length / (conn.queries_processed : ℚ)
  { conn with
    busy_time := conn.busy_time + (cl.busy_end - cl.busy_start)
    avg_query_length := avg + (cl.avg_end - cl.busy_start) / (conn.queries_processed : ℚ)
    is_busy := false }

/-- The function `real_query`. -/
def real_query {F : Type} (lib : FloatLib F) (cl : Client) (g : Globals) (conn : SQLCONN)
    (query_format : List Char) (query_params : QUERY_PARAMS F) : Outcome F :=
  let escaped_parameters := escape_params lib cl query_params
  if query_params.length ≠ escaped_parameters.length then
    { conn := { conn with queries_errored := incr_u64 conn.queries_errored }
      g := { g with
        last_error := ⟨cl.thread_id, "Parameter wasn't escaped: ".toList ++ cl.error⟩
        errored := incr_u64 g.errored }
      ret := .ok []
      submitted := none
      divisor := none }
  else
    let query_string := substitute query_format escaped_parameters
    let busy := { conn with is_busy := true }
    match cl.execute (c_str query_string) with
    | .failed =>
      { conn := complete cl { busy with queries_errored := incr_u64 conn.queries_errored }
        g := { g with
          last_error := ⟨cl.thread_id,
            "SQL Error: ".toList ++ cl.error ++ " on query ".toList ++ query_string⟩
          errored := incr_u64 g.errored }
        ret := .ok []
        submitted := some (c_str query_string)
        divisor := some conn.queries_processed }
    | .no_result =>
      { conn := complete cl busy, g := g, ret := .ok []
        submitted := some (c_str query_string)
        divisor := some conn.queries_processed }
    | .result r =>
      match decode_rows lib r.fields r.rows [] with
      | .error e =>
        { conn := busy, g := g, ret := .error e
          submitted := some (c_str query_string), divisor := none }
      | .ok rv =>
        { conn := complete cl busy, g := g, ret := .ok rv
          submitted := some (c_str query_string)
          divisor := some conn.queries_processed }

/-! ## `query`, `query_detach` and the background worker -/

/-- The struct `BACKGROUND_QUERY`. -/
structure BACKGROUND_QUERY (F : Type) where
  format : List Char
  params : QUERY_PARAMS F

/-- The shared variables of the translation unit: `connections`,
`current_index`, `background_connection`, the counters and error slot, and
`background_queries` (front of the queue first). -/
structure Pool (F : Type) where
  connections : List SQLCONN
  current_index : Nat
  background_connection : SQLCONN
  g : Globals
  background_queries : List (BACKGROUND_QUERY F)

/-- The pool before `connect`: `POOL_SIZE` value-initialised connections. -/
def Pool.fresh (F : Type) : Pool F :=
  { connections := List.replicate POOL_SIZE {}
    current_index := 0
    background_connection := {}
    g := {}
    background_queries := [] }

/-- Lines 201-203 of `query` for the connection chosen: `processed++`,
`connections[c].queries_processed++`, then `real_query` on it. -/
def dispatch {F : Type} (lib : FloatLib F) (cl : Client) (g : Globals) (conn : SQLCONN)
    (query_format : List Char) (query_params : QUERY_PARAMS F) : Outcome F :=
  real_query lib cl { g with processed := incr_u64 g.processed }
    { conn with queries_processed := incr_u64 conn.queries_processed }
    query_format query_params

/-- The function `query`: the pool after the call, the index selected and the
outcome of `real_query`. -/
def query {F : Type} (lib : FloatLib F) (cl : Client) (p : Pool F)
    (query_format : List Char) (query_params : QUERY_PARAMS F) :
    Pool F × Nat × Outcome F :=
  let s := (select (fun c => (p.connections.getD c default).is_busy) p.current_index).1
  let out := dispatch lib cl p.g (p.connections.getD s.c default) query_format query_params
  ({ p with
      connections := p.connections.set s.c out.conn
      current_index := s.current_index
      g := out.g },
    s.c, out)

/-- The function `query_detach`: the template is stored through
`query_format.data()`, a C string. -/
def query_detach {F : Type} (p : Pool F) (query_format : List Char)
    (query_params : QUERY_PARAMS F) : Pool F :=
  { p with background_queries := p.background_queries ++ [⟨c_str query_format, query_params⟩] }

/-- The inner loop `while (!bg_copy.empty())` of `background_procedure`: each
task goes through `real_query` on `background_connection` and only afterwards
are `processed` and `background_connection.queries_processed` incremented.  The
`n`-th call of `real_query` observes `cls n`.  An exception leaving the thread
function ends the process, so the loop stops there.  Returns the pool and the
outcomes of the calls made, oldest first. -/
def background_run {F : Type} (lib : FloatLib F) (cls : Nat → Client) :
    List (BACKGROUND_QUERY F) → Nat → Pool F → Pool F × List (Outcome F)
  | [], _, p => (p, [])
  | q :: bg_copy, n, p =>
    let out := real_query lib (cls n) p.g p.background_connection q.format q.params
    match out.ret with
    | .error _ => ({ p with background_connection := out.conn, g := out.g }, [out])
    | .ok _ =>
      let p1 : Pool F :=
        { p with
          g := { out.g with processed := incr_u64 out.g.processed }
          background_connection :=
            { out.conn with queries_processed := incr_u64 out.conn.queries_processed } }
      let r := background_run lib cls bg_copy (n + 1) p1
      (r.1, out :: r.2)

/-- One turn of the `while (1)` of `background_procedure`: the queue is moved
into `bg_copy` under the lock, then every task is run (an empty batch only
sleeps). -/
def background_cycle {F : Type} (lib : FloatLib F) (cls : Nat → Client) (p : Pool F) :
    Pool F × List (Outcome F) :=
  background_run lib cls p.background_queries 0 { p with background_queries := [] }

/-- One timed call on a connection as seen from that connection: the template,
the parameters, what the client answers and the globals at the time of the
call (other threads and connections may have changed them in between). -/
structure Call (F : Type) where
  cl : Client
  g : Globals
  query_format : List Char
  query_params : QUERY_PARAMS F

/-- The connection after a sequence of `query` calls that all selected it. -/
def dispatch_all {F : Type} (lib : FloatLib F) : SQLCONN → List (Call F) → SQLCONN
  | conn, [] => conn
  | conn, k :: rest =>
    dispatch_all lib (dispatch lib k.cl k.g conn k.query_format k.query_params).conn rest

/-- Duration that the completion step averages for a call: the clock sample of
line 321 minus `busy_start`. -/
def Call.duration {F : Type} (k : Call F) : ℚ := k.cl.avg_end - k.cl.busy_start

/-- Indices of the connections selected by `n` consecutive calls of `query`
with the same statement, each observing the client `cl`, together with the
pool after the last call. -/
def query_indices {F : Type} (lib : FloatLib F) (cl : Client) (query_format : List Char)
    (query_params : QUERY_PARAMS F) : Nat → Pool F → List Nat × Pool F
  | 0, p => ([], p)
  | n + 1, p =>
    let r := query lib cl p query_format query_params
    let rest := query_indices lib cl query_format query_params n r.1
    (r.2.1 :: rest.1, rest.2)

/-! ## `connect` (lines 126-169) -/

/-- A session handle: one of `connections[i]` or `background_connection`. -/
inductive Handle where
  | foreground (i : Nat)
  | background
  deriving DecidableEq, Repr

/-- Calls into the client library made by `connect`, as recorded in its trace. -/
inductive ClientCall where
  | mysql_init (h : Handle)
  | mysql_options_charset (h : Handle)
  | mysql_options_init_command (h : Handle)
  | mysql_options_reconnect (h : Handle)
  | mysql_real_connect (h : Handle)
  deriving DecidableEq, Repr

/-- The handle a client call is made on. -/
def ClientCall.handle : ClientCall → Handle
  | .mysql_init h => h
  | .mysql_options_charset h => h
  | .mysql_options_init_command h => h
  | .mysql_options_reconnect h => h
  | .mysql_real_connect h => h

/-- What the client library answers for one handle during `connect`:
`mysql_init` returns non-null, `mysql_options(MYSQL_OPT_RECONNECT)` returns 0,
`mysql_real_connect` returns non-null, and the text of `mysql_error`. -/
structure ConnectAnswers where
  init_ok : Bool
  reconnect_ok : Bool
  connect_ok : Bool
  error : List Char
  deriving DecidableEq, Repr

/-- State of `connect`: the local `failed`, `last_error`, the client calls made
so far (oldest first) and whether `background_thread` was started. -/
structure ConnectState where
  failed : Bool := false
  last_error : SQLCONN_LAST_ERROR := {}
  calls : List ClientCall := []
  worker_started : Bool := false
  deriving DecidableEq, Repr

/-- The loop `for (size_t i = 0; i < POOL_SIZE; ++i)` of `connect`, from index
`i` on; the first argument is the number of indices left, `POOL_SIZE - i`.  A
failing `mysql_real_connect` sets `failed`, writes `last_error` and leaves the
loop with `break`. -/
def connect_loop (thread_id : Nat) (answers : Nat → ConnectAnswers) :
    Nat → Nat → ConnectState → ConnectState
  | 0, _, st => st
  | left + 1, i, st =>
    let h := Handle.foreground i
    let a := answers i
    let st1 := { st with calls := st.calls ++ [.mysql_init h] }
    if a.init_ok then
      let st2 := { st1 with calls := st1.calls ++
        [.mysql_options_charset h, .mysql_options_init_command h, .mysql_options_reconnect h] }
      if a.reconnect_ok then
        let st3 := { st2 with calls := st2.calls ++ [.mysql_real_connect h] }
        if ¬ a.connect_ok then
          { st3 with
            failed := true
            last_error := ⟨thread_id, "Database connection failed: ".toList ++ a.error⟩ }
        else connect_loop thread_id answers left (i + 1) st3
      else connect_loop thread_id answers left (i + 1) st2
    else connect_loop thread_id answers left (i + 1) st1

/-- The function `connect`: the value returned and the final state.  `answers`
are the answers for the foreground handles, `bg` those for the background
handle, `last_error` the error slot on entry. -/
def connect (thread_id : Nat) (answers : Nat → ConnectAnswers) (bg : ConnectAnswers)
    (last_error : SQLCONN_LAST_ERROR) : Bool × ConnectState :=
  let st := connect_loop thread_id answers POOL_SIZE 0 { last_error := last_error }
  let h := Handle.background
  let st1 := { st with calls := st.calls ++ [.mysql_init h] }
  if bg.init_ok then
    let st2 := { st1 with calls := st1.calls ++
      [.mysql_options_charset h, .mysql_options_init_command h, .mysql_options_reconnect h] }
    if bg.reconnect_ok then
      let st3 := { st2 with worker_started := true }
      if st3.failed then (false, st3)
      else (bg.connect_ok, { st3 with calls := st3.calls ++ [.mysql_real_connect h] })
    else (!st2.failed, st2)
  else (!st1.failed, st1)

/-! ## Auxiliary notions used in the statements -/

/-- The text `part` occurs in `msg` as a contiguous block. -/
def contains_text (msg part : List Char) : Prop :=
  ∃ before after : List Char, msg = before ++ part ++ after

/-- On this handle `connect` reaches `mysql_real_connect` and that call fails. -/
def ConnectAnswers.fails (a : ConnectAnswers) : Prop :=
  a.init_ok = true ∧ a.reconnect_ok = true ∧ a.connect_ok = false

/-- A client whose escaping copies its input, whose server rejects every
statement with the given error text, and whose clock reads 10, 12 and 13. -/
def rejecting_client (error : List Char) : Client :=
  { thread_id := 7
    escape := fun s => some s
    error := error
    execute := fun _ => .failed
    busy_start := 10
    busy_end := 12
    avg_end := 13 }

/-- A client whose escaping fails on the text `bad` (and copies everything
else) and whose server accepts every statement without a result set. -/
def picky_client : Client :=
  { thread_id := 7
    escape := fun s => if s = "bad".toList then none else some s
    error := "escape failed".toList
    execute := fun _ => .no_result
    busy_start := 10
    busy_end := 12
    avg_end := 13 }

/-- A client whose server answers every statement with the given result set. -/
def answering_client (r : MYSQL_RES) : Client :=
  { thread_id := 7
    escape := fun s => some s
    error := []
    execute := fun _ => .result r
    busy_start := 10
    busy_end := 12
    avg_end := 13 }

/-- A client whose server accepts every statement without a result set and
whose statement takes `d` seconds. -/
def accepting_client (d : ℚ) : Client :=
  { thread_id := 7
    escape := fun s => some s
    error := []
    execute := fun _ => .no_result
    busy_start := 10
    busy_end := 10 + d
    avg_end := 10 + d }

/-- A float library over the one-point carrier, for examples in which no
floating-point value occurs. -/
def unit_floats : FloatLib Unit :=
  { stof := fun _ => .ok (), stod := fun _ => .ok ()
    put_f32 := fun _ => [], put_f64 := fun _ => [] }

/-- Two statements without parameters, taking 2 and 4 seconds. -/
def two_calls : List (Call Unit) :=
  [ { cl := accepting_client 2, g := {}, query_format := "SELECT 1".toList, query_params := [] },
    { cl := accepting_client 4, g := {}, query_format := "SELECT 2".toList, query_params := [] } ]

/-- A result set with one `INT` column `v` and one row whose cell is NULL. -/
def null_int_result : MYSQL_RES :=
  { fields := [{ name := some "v".toList, type := .MYSQL_TYPE_LONG }]
    rows := [[none]] }

/-- A result set with one `BIGINT UNSIGNED` column `v` (flag `UNSIGNED_FLAG`,
32) and one row holding the largest value of that type. -/
def big_unsigned_result : MYSQL_RES :=
  { fields := [{ name := some "v".toList, type := .MYSQL_TYPE_LONGLONG, flags := 32 }]
    rows := [[some "18446744073709551615".toList]] }

/-- Answers under which foreground connection 0 fails to connect and every
other handle succeeds. -/
def first_refused (i : Nat) : ConnectAnswers :=
  { init_ok := true, reconnect_ok := true, connect_ok := i != 0
    error := "connection refused".toList }

/-- Answers of a handle on which every client call succeeds. -/
def all_fine : ConnectAnswers :=
  { init_ok := true, reconnect_ok := true, connect_ok := true, error := [] }

/-! ## Selection: bounds and termination -/

lemma probe_body_tries (s : Selection) : (probe_body s).tries = s.tries + 1 := by
  unfold probe_body; split <;> rfl

lemma probe_body_bounds (s : Selection) :
    (probe_body s).c < POOL_SIZE ∧ (probe_body s).current_index < POOL_SIZE := by
  unfold probe_body POOL_SIZE
  split <;> (simp; try omega)

lemma select_init_bounds (cur : Nat) :
    (select_init cur).c < POOL_SIZE ∧ (select_init cur).current_index ≤ POOL_SIZE ∧
      (select_init cur).tries = 0 := by
  unfold select_init POOL_SIZE
  split <;> (simp; try omega)

lemma probe_loop_bounds (busy : Nat → Bool) :
    ∀ (fuel : Nat) (s : Selection), s.c < POOL_SIZE → s.current_index ≤ POOL_SIZE →
      s.tries ≤ POOL_SIZE + 1 →
      (∀ i ∈ (probe_loop busy fuel s).2, i < POOL_SIZE) ∧
      (probe_loop busy fuel s).1.c < POOL_SIZE ∧
      (probe_loop busy fuel s).1.current_index ≤ POOL_SIZE ∧
      (probe_loop busy fuel s).1.tries ≤ POOL_SIZE + 1 := by
  intro fuel
  induction fuel with
  | zero => intro s hc hi ht; simp [probe_loop, hc, hi, ht]
  | succ fuel ih =>
    intro s hc hi ht
    unfold probe_loop
    by_cases h1 : s.tries < POOL_SIZE + 1
    · by_cases h2 : busy s.c = true
      · have hb := probe_body_bounds s
        have := ih (probe_body s) hb.1 (Nat.le_of_lt hb.2) (by rw [probe_body_tries]; omega)
        simp only [h1, h2, if_true]
        refine ⟨?_, this.2.1, this.2.2.1, this.2.2.2⟩
        intro i hi'
        rcases List.mem_cons.mp hi' with rfl | h
        · exact hc
        · exact this.1 i h
      · simp [h1, h2, hc, hi, ht]
    · simp [h1, hc, hi, ht]

lemma probe_loop_succ (busy : Nat → Bool) :
    ∀ (fuel : Nat) (s : Selection), POOL_SIZE + 1 ≤ s.tries + fuel →
      probe_loop busy (fuel + 1) s = probe_loop busy fuel s := by
  intro fuel
  induction fuel with
  | zero =>
    intro s h
    have : ¬ s.tries < POOL_SIZE + 1 := by omega
    simp [probe_loop, this]
  | succ fuel ih =>
    intro s h
    rw [probe_loop, probe_loop.eq_def busy (fuel + 1) s]
    by_cases h1 : s.tries < POOL_SIZE + 1
    · by_cases h2 : busy s.c = true
      · simp only [h1, h2, if_true]
        rw [ih (probe_body s) (by rw [probe_body_tries]; omega)]
      · simp [h1, h2]
    · simp [h1]

lemma probe_loop_fuel (busy : Nat → Bool) (s : Selection) (hs : s.tries = 0) :
    ∀ fuel, POOL_SIZE + 1 ≤ fuel →
      probe_loop busy fuel s = probe_loop busy (POOL_SIZE + 1) s := by
  intro fuel h
  induction fuel with
  | zero => simp [POOL_SIZE] at h
  | succ fuel ih =>
    by_cases h' : POOL_SIZE + 1 ≤ fuel
    · rw [probe_loop_succ busy fuel s (by omega), ih h']
    · have : fuel = POOL_SIZE := by omega
      rw [this]

/-- C10: for every starting cursor and every assignment of busy flags, each
index with which `connections[c]` is read during selection and the index
finally selected are below `POOL_SIZE`, the loop runs at most `POOL_SIZE + 1`
times (and allowing it more iterations changes nothing), and the cursor left
behind is at most `POOL_SIZE`. -/
theorem select_within_bounds (busy : Nat → Bool) (cur : Nat) :
    (∀ i ∈ (select busy cur).2, i < POOL_SIZE) ∧
    (select busy cur).1.c < POOL_SIZE ∧
    (select busy cur).1.tries ≤ POOL_SIZE + 1 ∧
    (select busy cur).1.current_index ≤ POOL_SIZE ∧
    (∀ fuel, POOL_SIZE + 1 ≤ fuel →
      probe_loop busy fuel (select_init cur) = select busy cur) := by
  have h0 := select_init_bounds cur
  have hb := probe_loop_bounds busy (POOL_SIZE + 1) (select_init cur) h0.1 h0.2.1
    (by rw [h0.2.2]; omega)
  exact ⟨hb.1, hb.2.1, hb.2.2.2, hb.2.2.1, probe_loop_fuel busy (select_init cur) h0.2.2⟩

/-- The index that `query` hands to `real_query` and the cursor it leaves are
those computed by `select` from the busy flags of the pool. -/
lemma query_selects {F : Type} (lib : FloatLib F) (cl : Client) (p : Pool F)
    (query_format : List Char) (query_params : QUERY_PARAMS F) :
    (query lib cl p query_format query_params).2.1
      = (select (fun c => (p.connections.getD c default).is_busy) p.current_index).1.c ∧
    (query lib cl p query_format query_params).1.current_index
      = (select (fun c => (p.connections.getD c default).is_busy)
          p.current_index).1.current_index :=
  ⟨rfl, rfl⟩

/-! ## Selection: skipping busy connections -/

lemma iterate_probe_body_tries (m : Nat) :
    ∀ s : Selection, (probe_body^[m] s).tries = s.tries + m := by
  induction m with
  | zero => intro s; rfl
  | succ m ih =>
    intro s
    rw [Function.iterate_succ_apply, ih, probe_body_tries]; omega

/-- The loop follows `probe_body` for as long as the connections met are busy
and stops at the first one that is not. -/
lemma probe_loop_run (busy : Nat → Bool) :
    ∀ (m : Nat) (s : Selection) (fuel : Nat), m < fuel → s.tries + m < POOL_SIZE + 1 →
      (∀ j, j < m → busy (probe_body^[j] s).c = true) →
      busy (probe_body^[m] s).c = false →
      (probe_loop busy fuel s).1 = probe_body^[m] s := by
  intro m
  induction m with
  | zero =>
    intro s fuel hf ht _ hstop
    obtain ⟨fuel, rfl⟩ : ∃ k, fuel = k + 1 := ⟨fuel - 1, by omega⟩
    have h1 : s.tries < POOL_SIZE + 1 := by omega
    have h2 : busy s.c = false := hstop
    simp [probe_loop, h1, h2]
  | succ m ih =>
    intro s fuel hf ht hbusy hstop
    obtain ⟨fuel, rfl⟩ : ∃ k, fuel = k + 1 := ⟨fuel - 1, by omega⟩
    have h1 : s.tries < POOL_SIZE + 1 := by omega
    have h2 : busy s.c = true := hbusy 0 (by omega)
    have := ih (probe_body s) fuel (by omega) (by rw [probe_body_tries]; omega)
      (fun j hj => by
        have := hbusy (j + 1) (by omega)
        rwa [Function.iterate_succ_apply] at this)
      (by rwa [Function.iterate_succ_apply] at hstop)
    simp only [probe_loop, h1, h2, if_true]
    rw [this, Function.iterate_succ_apply]

lemma select_init_ge (cur : Nat) (h : POOL_SIZE ≤ cur) :
    select_init cur = select_init POOL_SIZE := by
  simp [select_init, h]

set_option maxRecDepth 100000 in
/-- From every initial cursor the busy-only trajectory meets each of the
`POOL_SIZE` indices within its first `POOL_SIZE + 1` states. -/
lemma probe_cover_fin :
    ∀ cur : Fin 17, ∀ i : Fin 16, ∃ j : Fin 17,
      (probe_body^[j.1] (select_init cur.1)).c = i.1 := by
  decide

lemma probe_cover (cur i : Nat) (hi : i < POOL_SIZE) :
    ∃ j, j ≤ POOL_SIZE ∧ (probe_body^[j] (select_init cur)).c = i := by
  by_cases hc : POOL_SIZE ≤ cur
  · obtain ⟨j, hj⟩ := probe_cover_fin ⟨16, by omega⟩ ⟨i, hi⟩
    refine ⟨j.1, by have := j.2; simp only [POOL_SIZE]; omega, ?_⟩
    rw [select_init_ge cur hc]
    exact hj
  · obtain ⟨j, hj⟩ := probe_cover_fin ⟨cur, by simp only [POOL_SIZE] at hc; omega⟩ ⟨i, hi⟩
    exact ⟨j.1, by have := j.2; simp only [POOL_SIZE]; omega, hj⟩

/-- C3: for every cursor value and every assignment of busy flags in which at
least one of the `POOL_SIZE` connections is not busy, the connection selected
by `query` is not busy, and the probe loop has run at most `POOL_SIZE` times. -/
theorem select_finds_idle (busy : Nat → Bool) (cur : Nat)
    (h : ∃ i, i < POOL_SIZE ∧ busy i = false) :
    busy (select busy cur).1.c = false ∧ (select busy cur).1.tries ≤ POOL_SIZE := by
  obtain ⟨i, hi, hidle⟩ := h
  obtain ⟨j, hj, hji⟩ := probe_cover cur i hi
  have hex : ∃ m, busy (probe_body^[m] (select_init cur)).c = false := ⟨j, by rw [hji]; exact hidle⟩
  have hm := Nat.find_spec hex
  have hmin : ∀ k, k < Nat.find hex → busy (probe_body^[k] (select_init cur)).c = true := by
    intro k hk
    have := Nat.find_min hex hk
    simpa using this
  have hle : Nat.find hex ≤ j := Nat.find_min' hex (by rw [hji]; exact hidle)
  have h0 := (select_init_bounds cur).2.2
  have hrun := probe_loop_run busy (Nat.find hex) (select_init cur) (POOL_SIZE + 1)
    (by omega) (by rw [h0]; omega) hmin hm
  unfold select
  rw [hrun, iterate_probe_body_tries, h0]
  exact ⟨hm, by omega⟩

/-- Witness for C3: connection 3 is the only busy one and the cursor points at it. -/
theorem select_finds_idle_witness :
    (∃ i, i < POOL_SIZE ∧ (fun c => c == 3) i = false) ∧
    ((fun c => c == 3) (select (fun c => c == 3) 3).1.c = false ∧
      (select (fun c => c == 3) 3).1.tries ≤ POOL_SIZE) :=
  ⟨⟨0, by decide, by decide⟩, select_finds_idle (fun c => c == 3) 3 ⟨0, by decide, by decide⟩⟩

/-! ## Selection over consecutive calls -/

/-- A call of `real_query` that returns (rather than throws) on an idle
connection leaves it idle. -/
lemma real_query_idle {F : Type} (lib : FloatLib F) (cl : Client) (g : Globals)
    (conn : SQLCONN) (query_format : List Char) (query_params : QUERY_PARAMS F)
    (hidle : conn.is_busy = false)
    (hret : ∀ e, (real_query lib cl g conn query_format query_params).ret ≠ .error e) :
    (real_query lib cl g conn query_format query_params).conn.is_busy = false := by
  unfold real_query at hret ⊢
  by_cases hne : query_params.length ≠ (escape_params lib cl query_params).length
  · simp [hne, hidle]
  · cases hrep : cl.execute
        (c_str (substitute query_format (escape_params lib cl query_params))) with
    | failed => simp [hne, hrep, complete]
    | no_result => simp [hne, hrep, complete]
    | result r =>
      cases hdec : decode_rows lib r.fields r.rows [] with
      | error e => exact absurd (by simp [hne, hrep, hdec]) (hret e)
      | ok rv => simp [hne, hrep, hdec, complete]

/-- On a pool without busy connection, `query` selects as `select` does with
all flags clear, and if `real_query` returns the pool is again without busy
connection. -/
lemma query_on_idle_pool {F : Type} (lib : FloatLib F) (cl : Client) (p : Pool F)
    (query_format : List Char) (query_params : QUERY_PARAMS F)
    (hidle : ∀ conn ∈ p.connections, conn.is_busy = false)
    (hret : ∀ (g : Globals) (conn : SQLCONN) (e : StdException),
      (real_query lib cl g conn query_format query_params).ret ≠ .error e) :
    (query lib cl p query_format query_params).2.1
      = (select (fun _ => false) p.current_index).1.c ∧
    (query lib cl p query_format query_params).1.current_index
      = (select (fun _ => false) p.current_index).1.current_index ∧
    (∀ conn ∈ (query lib cl p query_format query_params).1.connections,
      conn.is_busy = false) := by
  have hflags : (fun c => (p.connections.getD c default).is_busy) = fun _ => false := by
    funext c
    by_cases hc : c < p.connections.length
    · rw [List.getD_eq_getElem _ _ hc]
      exact hidle _ (List.getElem_mem hc)
    · rw [List.getD_eq_default _ _ (by omega)]
      rfl
  unfold query
  simp only [hflags]
  refine ⟨trivial, trivial, ?_⟩
  intro conn hconn
  rcases List.mem_or_eq_of_mem_set hconn with h | h
  · exact hidle conn h
  · rw [h]
    unfold dispatch
    apply real_query_idle _ _ _ _ _ _ _ (hret _ _)
    have := congrFun hflags (select (fun _ => false) p.current_index).1.c
    simpa using this

lemma query_indices_idle {F : Type} (lib : FloatLib F) (cl : Client)
    (query_format : List Char) (query_params : QUERY_PARAMS F)
    (hret : ∀ (g : Globals) (conn : SQLCONN) (e : StdException),
      (real_query lib cl g conn query_format query_params).ret ≠ .error e) :
    ∀ (n : Nat) (p : Pool F), (∀ conn ∈ p.connections, conn.is_busy = false) →
      (query_indices lib cl query_format query_params n p).1
        = (select_run n p.current_index).1 := by
  intro n
  induction n with
  | zero => intro p _; rfl
  | succ n ih =>
    intro p hidle
    obtain ⟨h1, h2, h3⟩ := query_on_idle_pool lib cl p query_format query_params hidle hret
    simp only [query_indices, select_run]
    rw [h1, ih _ h3, h2]

lemma accepting_client_returns {F : Type} (lib : FloatLib F) (d : ℚ)
    (query_format : List Char) (query_params : QUERY_PARAMS F) (g : Globals) (conn : SQLCONN)
    (e : StdException) :
    (real_query lib (accepting_client d) g conn query_format query_params).ret ≠ .error e := by
  unfold real_query
  by_cases hne : query_params.length
      ≠ (escape_params lib (accepting_client d) query_params).length
  · simp [hne]
  · have : (accepting_client d).execute (c_str (substitute query_format
        (escape_params lib (accepting_client d) query_params))) = .no_result := rfl
    simp [hne, this]

set_option maxRecDepth 100000 in
lemma select_run_32 :
    (select_run 32 0).1 = [0, 1, 2, 3, 4, 5, 6, 7, 8, 9, 10, 11, 12, 13, 14, 15,
      0, 0, 1, 2, 3, 4, 5, 6, 7, 8, 9, 10, 11, 12, 13, 14] := by
  decide

set_option maxRecDepth 100000 in
lemma select_run_16 :
    select_run 16 0 = ([0, 1, 2, 3, 4, 5, 6, 7, 8, 9, 10, 11, 12, 13, 14, 15], 16) ∧
    (select_run 16 16).1 = [0, 0, 1, 2, 3, 4, 5, 6, 7, 8, 9, 10, 11, 12, 13, 14] := by
  decide

/-- C2 (evaluation at the failing input): on a fresh pool, with no connection
ever busy, the first 16 calls of `query` select connections 0..15 and leave
the cursor at 16 (a state reached from the initial cursor 0); the 16 calls
that follow select connection 0 twice and connection 15 not at all. -/
theorem round_robin_repeats_after_wrap {F : Type} (lib : FloatLib F) :
    (query_indices lib (accepting_client 2) "SELECT 1".toList [] 32 (Pool.fresh F)).1
      = [0, 1, 2, 3, 4, 5, 6, 7, 8, 9, 10, 11, 12, 13, 14, 15,
        0, 0, 1, 2, 3, 4, 5, 6, 7, 8, 9, 10, 11, 12, 13, 14] ∧
    select_run 16 0 = ([0, 1, 2, 3, 4, 5, 6, 7, 8, 9, 10, 11, 12, 13, 14, 15], 16) ∧
    (select_run 16 16).1 = [0, 0, 1, 2, 3, 4, 5, 6, 7, 8, 9, 10, 11, 12, 13, 14] ∧
    ¬ (select_run 16 16).1.Nodup := by
  refine ⟨?_, select_run_16.1, select_run_16.2, ?_⟩
  · rw [query_indices_idle lib (accepting_client 2) _ _
      (accepting_client_returns lib 2 _ _) 32 (Pool.fresh F)
      (by intro conn hconn; rw [List.eq_of_mem_replicate hconn])]
    exact select_run_32
  · rw [select_run_16.2]
    decide

/-! ## Placeholder substitution -/

lemma substitute_loop_spec (ps : List (List Char)) (hne : ps ≠ [])
    (hlen : ps.length ≤ 2 ^ 32) :
    ∀ (tmpl : List Char) (k : Nat) (acc : List Char),
      substitute_loop ps tmpl (min k (ps.length - 1)) acc = acc ++ spec_substitute ps tmpl k := by
  have hpos : 0 < ps.length := List.length_pos.mpr hne
  have hlast : (ps.length + (2 ^ 64 - 1)) % 2 ^ 64 = ps.length - 1 := by omega
  intro tmpl
  induction tmpl with
  | nil => intro k acc; simp [substitute_loop, spec_substitute]
  | cons v rest ih =>
    intro k acc
    by_cases hv : v = '?'
    · have hcond : ps.length ≥ (min k (ps.length - 1) + 1) % 2 ^ 32 := by omega
      have hnext : (if min k (ps.length - 1) ≠ (ps.length + (2 ^ 64 - 1)) % 2 ^ 64
          then (min k (ps.length - 1) + 1) % 2 ^ 32 else min k (ps.length - 1))
          = min (k + 1) (ps.length - 1) := by
        rw [hlast]
        split <;> omega
      rw [substitute_loop, if_pos ⟨hv, hcond⟩, hnext, ih, spec_substitute, if_pos hv]
      simp
    · rw [substitute_loop, if_neg (fun h => hv h.1), ih, spec_substitute, if_neg hv]
      simp

/-- C1: for every template and every non-empty list of already-escaped
parameters (of at most `2 ^ 32` entries, the range of the `u32` counter), the
statement built by the substitution loop of `real_query` is the template with
its `k`-th placeholder replaced by parameter `min k (n - 1)` and every other
character copied unchanged. -/
theorem substitute_reuses_last (query_format : List Char) (ps : List (List Char))
    (hne : ps ≠ []) (hlen : ps.length ≤ 2 ^ 32) :
    substitute query_format ps = spec_substitute ps query_format 0 := by
  have := substitute_loop_spec ps hne hlen query_format 0 []
  simpa [substitute] using this

/-- Witness for C1: the template of the repository's test with its single
parameter, and three placeholders with one parameter. -/
theorem substitute_reuses_last_witness :
    (["users".toList] ≠ [] ∧ ["users".toList].length ≤ 2 ^ 32 ∧
      substitute "SELECT * FROM ?;".toList ["users".toList] = "SELECT * FROM users;".toList) ∧
    substitute "(?, ?, ?)".toList ["7".toList] = "(7, 7, 7)".toList :=
  ⟨⟨by simp, by simp, (substitute_reuses_last _ _ (by simp) (by simp)).trans (by decide)⟩,
    (substitute_reuses_last _ _ (by simp) (by simp)).trans (by decide)⟩

/-! ## Escaping failures and the error slot -/

lemma escape_params_length_le {F : Type} (lib : FloatLib F) (cl : Client) :
    ∀ params : QUERY_PARAMS F, (escape_params lib cl params).length ≤ params.length := by
  intro params
  induction params with
  | nil => simp [escape_params]
  | cons p rest ih =>
    unfold escape_params
    split
    · simp only [List.length_cons]; omega
    · simp only [List.length_cons]; omega

lemma escape_params_length_lt {F : Type} (lib : FloatLib F) (cl : Client) :
    ∀ params : QUERY_PARAMS F, (∃ p ∈ params, cl.escape (render lib p) = none) →
      (escape_params lib cl params).length < params.length := by
  intro params
  induction params with
  | nil => rintro ⟨p, hp, _⟩; simp at hp
  | cons q rest ih =>
    rintro ⟨p, hp, hnone⟩
    unfold escape_params
    rcases List.mem_cons.mp hp with rfl | hmem
    · rw [hnone]
      have := escape_params_length_le lib cl rest
      simp only [List.length_cons]; omega
    · have := ih ⟨p, hmem, hnone⟩
      split
      · simp only [List.length_cons]; omega
      · simp only [List.length_cons]; omega

/-- C8: for every template and parameter list in which escaping fails for at
least one parameter, `real_query` returns an empty table, leaves a non-empty
message in the error slot, increments `conn.queries_errored` and `errored` by
one each (as `u64` increments), hands no statement to the server and leaves the
busy flag, `busy_time` and `avg_query_length` of the connection unchanged. -/
theorem escape_failure_aborts {F : Type} (lib : FloatLib F) (cl : Client) (g : Globals)
    (conn : SQLCONN) (query_format : List Char) (query_params : QUERY_PARAMS F)
    (h : ∃ p ∈ query_params, cl.escape (render lib p) = none) :
    (real_query lib cl g conn query_format query_params).ret = .ok [] ∧
    (real_query lib cl g conn query_format query_params).g.last_error.message ≠ [] ∧
    (real_query lib cl g conn query_format query_params).conn.queries_errored
      = (conn.queries_errored + 1) % 2 ^ 64 ∧
    (real_query lib cl g conn query_format query_params).g.errored = (g.errored + 1) % 2 ^ 64 ∧
    (real_query lib cl g conn query_format query_params).submitted = none ∧
    (real_query lib cl g conn query_format query_params).divisor = none ∧
    (real_query lib cl g conn query_format query_params).conn.is_busy = conn.is_busy ∧
    (real_query lib cl g conn query_format query_params).conn.busy_time = conn.busy_time ∧
    (real_query lib cl g conn query_format query_params).conn.avg_query_length
      = conn.avg_query_length ∧
    (real_query lib cl g conn query_format query_params).conn.queries_processed
      = conn.queries_processed ∧
    (real_query lib cl g conn query_format query_params).g.processed = g.processed := by
  have hlt := escape_params_length_lt lib cl query_params h
  have hne : query_params.length ≠ (escape_params lib cl query_params).length := by omega
  simp [real_query, hne, incr_u64]

/-- Witness for C8: the second of three parameters cannot be escaped. -/
theorem escape_failure_aborts_witness :
    (∃ p ∈ ([.string "a".toList, .string "bad".toList, .u32 5] : QUERY_PARAMS Unit),
      picky_client.escape (render unit_floats p) = none) ∧
    (real_query unit_floats picky_client {} {} "INSERT INTO t VALUES (?, ?, ?)".toList
        [.string "a".toList, .string "bad".toList, .u32 5]).ret = .ok [] ∧
    (real_query unit_floats picky_client {} {} "INSERT INTO t VALUES (?, ?, ?)".toList
        [.string "a".toList, .string "bad".toList, .u32 5]).submitted = none :=
  ⟨⟨.string "bad".toList, by simp, by simp [render, picky_client]⟩,
    (escape_failure_aborts unit_floats picky_client {} {} _ _
      ⟨.string "bad".toList, by simp, by simp [render, picky_client]⟩).1,
    (escape_failure_aborts unit_floats picky_client {} {} _ _
      ⟨.string "bad".toList, by simp, by simp [render, picky_client]⟩).2.2.2.2.1⟩

/-- C4: for every statement whose execution fails (every parameter escaped, the
server rejecting the built statement, whatever the error text), the first
`get_last_error` after the `query` call returns an error whose message contains
the server error text and the built statement, and the `get_last_error` right
after it returns nothing. -/
theorem failed_statement_error_taken_once {F : Type} (lib : FloatLib F) (cl : Client)
    (p : Pool F) (query_format : List Char) (query_params : QUERY_PARAMS F)
    (hesc : (escape_params lib cl query_params).length = query_params.length)
    (hfail : cl.execute (c_str (substitute query_format (escape_params lib cl query_params)))
      = .failed) :
    ∃ e : SQLCONN_LAST_ERROR,
      (get_last_error (query lib cl p query_format query_params).1.g).1 = some e ∧
      contains_text e.message cl.error ∧
      contains_text e.message (substitute query_format (escape_params lib cl query_params)) ∧
      e.thread_id = cl.thread_id ∧
      (get_last_error
        (get_last_error (query lib cl p query_format query_params).1.g).2).1 = none := by
  refine ⟨⟨cl.thread_id, "SQL Error: ".toList ++ cl.error ++ " on query ".toList ++
    substitute query_format (escape_params lib cl query_params)⟩, ?_, ?_, ?_, rfl, ?_⟩
  · simp [query, dispatch, real_query, hesc, hfail, get_last_error]
  · exact ⟨"SQL Error: ".toList,
      " on query ".toList ++ substitute query_format (escape_params lib cl query_params),
      by simp [List.append_assoc]⟩
  · exact ⟨"SQL Error: ".toList ++ cl.error ++ " on query ".toList, [], by simp⟩
  · simp [query, dispatch, real_query, hesc, hfail, get_last_error]

/-- Witness for C4: the failing statement of the repository's test, with an
empty server error text. -/
theorem failed_statement_error_taken_once_witness :
    ((escape_params unit_floats (rejecting_client []) [.string []]).length
        = ([.string []] : QUERY_PARAMS Unit).length ∧
      (rejecting_client []).execute (c_str (substitute "SELECT * FROM;".toList
        (escape_params unit_floats (rejecting_client []) [.string []]))) = .failed) ∧
    ∃ e : SQLCONN_LAST_ERROR,
      (get_last_error (query unit_floats (rejecting_client []) (Pool.fresh Unit)
        "SELECT * FROM;".toList [.string []]).1.g).1 = some e ∧
      contains_text e.message (rejecting_client []).error ∧
      contains_text e.message (substitute "SELECT * FROM;".toList
        (escape_params unit_floats (rejecting_client []) [.string []])) ∧
      e.thread_id = (rejecting_client []).thread_id ∧
      (get_last_error (get_last_error (query unit_floats (rejecting_client [])
        (Pool.fresh Unit) "SELECT * FROM;".toList [.string []]).1.g).2).1 = none :=
  ⟨⟨by simp [escape_params, rejecting_client, render], by simp [rejecting_client]⟩,
    failed_statement_error_taken_once unit_floats (rejecting_client []) (Pool.fresh Unit)
      "SELECT * FROM;".toList [.string []]
      (by simp [escape_params, rejecting_client, render]) (by simp [rejecting_client])⟩

/-! ## Running mean -/

/-- A call that runs the completion step leaves the counter incremented by
`query` and the mean updated with that counter as divisor. -/
lemma dispatch_timed {F : Type} (lib : FloatLib F) (cl : Client) (g : Globals)
    (conn : SQLCONN) (query_format : List Char) (query_params : QUERY_PARAMS F)
    (h : (dispatch lib cl g conn query_format query_params).divisor.isSome = true) :
    (dispatch lib cl g conn query_format query_params).conn.queries_processed
      = incr_u64 conn.queries_processed ∧
    (dispatch lib cl g conn query_format query_params).conn.avg_query_length
      = conn.avg_query_length - conn.avg_query_length / (incr_u64 conn.queries_processed : ℚ)
        + (cl.avg_end - cl.busy_start) / (incr_u64 conn.queries_processed : ℚ) := by
  unfold dispatch real_query at h ⊢
  by_cases hne : query_params.length ≠ (escape_params lib cl query_params).length
  · simp [hne] at h
  · cases hrep : cl.execute
        (c_str (substitute query_format (escape_params lib cl query_params))) with
    | failed => simp [hne, hrep, complete]
    | no_result => simp [hne, hrep, complete]
    | result r =>
      cases hdec : decode_rows lib r.fields r.rows [] with
      | error e => simp [hne, hrep, hdec] at h
      | ok rv => simp [hne, hrep, hdec, complete]

lemma dispatch_all_mean {F : Type} (lib : FloatLib F) :
    ∀ (calls : List (Call F)) (conn : SQLCONN) (S : ℚ),
      conn.avg_query_length * (conn.queries_processed : ℚ) = S →
      conn.queries_processed + calls.length < 2 ^ 64 →
      (∀ k ∈ calls, ∀ c : SQLCONN,
        (dispatch lib k.cl k.g c k.query_format k.query_params).divisor.isSome = true) →
      (dispatch_all lib conn calls).queries_processed = conn.queries_processed + calls.length ∧
      (dispatch_all lib conn calls).avg_query_length
          * ((conn.queries_processed + calls.length : Nat) : ℚ)
        = S + (calls.map Call.duration).sum := by
  intro calls
  induction calls with
  | nil => intro conn S hS _ _; simpa [dispatch_all] using hS
  | cons k rest ih =>
    intro conn S hS hlt htimed
    simp only [List.length_cons] at hlt
    obtain ⟨hq, havg⟩ := dispatch_timed lib k.cl k.g conn k.query_format k.query_params
      (htimed k (List.mem_cons_self _ _) conn)
    have hincr : incr_u64 conn.queries_processed = conn.queries_processed + 1 := by
      unfold incr_u64; omega
    rw [hincr] at hq havg
    have hstep : (dispatch lib k.cl k.g conn k.query_format k.query_params).conn.avg_query_length
        * (((dispatch lib k.cl k.g conn k.query_format k.query_params).conn.queries_processed
          : Nat) : ℚ) = S + k.duration := by
      rw [hq, havg, ← hS]
      have hpos : ((conn.queries_processed + 1 : Nat) : ℚ) ≠ 0 := by positivity
      unfold Call.duration
      field_simp
      ring
    have := ih (dispatch lib k.cl k.g conn k.query_format k.query_params).conn
      (S + k.duration) hstep (by rw [hq]; omega)
      (fun k' hk' => htimed k' (List.mem_cons_of_mem _ hk'))
    rw [hq] at this
    simp only [dispatch_all, List.length_cons, List.map_cons, List.sum_cons]
    refine ⟨by rw [this.1]; omega, ?_⟩
    have h2 := this.2
    have e : conn.queries_processed + 1 + rest.length = conn.queries_processed + (rest.length + 1) := by
      omega
    rw [e] at h2
    rw [h2]; ring

/-- C5: in exact arithmetic, starting from a fresh connection
(`queries_processed = 0`, `avg_query_length = 0`), after `k >= 1` (and fewer
than `2 ^ 64`) `query` calls dispatched to that connection that all run the
completion step, `avg_query_length` is the arithmetic mean of the `k`
durations measured on line 321. -/
theorem running_mean_is_mean {F : Type} (lib : FloatLib F) (conn : SQLCONN)
    (calls : List (Call F))
    (hfresh : conn.queries_processed = 0 ∧ conn.avg_query_length = 0)
    (hk : 1 ≤ calls.length) (hlt : calls.length < 2 ^ 64)
    (htimed : ∀ k ∈ calls, ∀ c : SQLCONN,
      (dispatch lib k.cl k.g c k.query_format k.query_params).divisor.isSome = true) :
    (dispatch_all lib conn calls).avg_query_length
      = (calls.map Call.duration).sum / (calls.length : ℚ) := by
  have h := dispatch_all_mean lib calls conn 0 (by rw [hfresh.2]; simp)
    (by rw [hfresh.1]; omega) htimed
  rw [hfresh.1] at h
  have hpos : ((calls.length : Nat) : ℚ) ≠ 0 := by
    have : 0 < calls.length := hk
    positivity
  have h2 := h.2
  simp only [Nat.zero_add, zero_add] at h2
  field_simp
  exact h2

/-- Witness for C5: two statements of 2 and 4 seconds on a fresh connection
leave a mean of 3 seconds. -/
theorem running_mean_is_mean_witness :
    (({} : SQLCONN).queries_processed = 0 ∧ ({} : SQLCONN).avg_query_length = 0) ∧
    1 ≤ two_calls.length ∧ two_calls.length < 2 ^ 64 ∧
    (∀ k ∈ two_calls, ∀ c : SQLCONN,
      (dispatch unit_floats k.cl k.g c k.query_format k.query_params).divisor.isSome = true) ∧
    (dispatch_all unit_floats {} two_calls).avg_query_length = 3 :=
  ⟨⟨rfl, rfl⟩, by simp [two_calls], by simp [two_calls],
    by simp [two_calls, dispatch, real_query, escape_params, accepting_client],
    (running_mean_is_mean unit_floats {} two_calls ⟨rfl, rfl⟩ (by simp [two_calls])
      (by simp [two_calls])
      (by simp [two_calls, dispatch, real_query, escape_params, accepting_client])).trans
      (by norm_num [two_calls, Call.duration, accepting_client])⟩

/-! ## Decoding -/

/-- C7 (evaluation at the failing input): a NULL cell in an `INT` column makes
`std::stol("")` throw `invalid_argument`, and the largest `BIGINT UNSIGNED`
value makes `std::stoll` throw `out_of_range`; either exception leaves
`real_query` and `query`, the completion step does not run and the connection
stays marked busy. -/
theorem decode_throws {F : Type} (lib : FloatLib F) :
    (query lib (answering_client null_int_result) (Pool.fresh F)
        "SELECT v FROM t".toList []).2.2.ret = .error .invalid_argument ∧
    (query lib (answering_client big_unsigned_result) (Pool.fresh F)
        "SELECT v FROM t".toList []).2.2.ret = .error .out_of_range ∧
    (query lib (answering_client null_int_result) (Pool.fresh F)
        "SELECT v FROM t".toList []).2.2.divisor = none ∧
    (query lib (answering_client null_int_result) (Pool.fresh F)
        "SELECT v FROM t".toList []).2.2.conn.is_busy = true := by
  exact ⟨rfl, rfl, rfl, rfl⟩

/-! ## Divisor of the running mean -/

/-- The divisor of a `query` call that runs the completion step is the counter
as incremented on line 202. -/
lemma dispatch_divisor {F : Type} (lib : FloatLib F) (cl : Client) (g : Globals)
    (conn : SQLCONN) (query_format : List Char) (query_params : QUERY_PARAMS F) (d : Nat)
    (h : (dispatch lib cl g conn query_format query_params).divisor = some d) :
    d = incr_u64 conn.queries_processed := by
  unfold dispatch real_query at h
  by_cases hne : query_params.length ≠ (escape_params lib cl query_params).length
  · simp [hne] at h
  · cases hrep : cl.execute
        (c_str (substitute query_format (escape_params lib cl query_params))) with
    | failed => simp [hne, hrep] at h; exact h.symm
    | no_result => simp [hne, hrep] at h; exact h.symm
    | result r =>
      cases hdec : decode_rows lib r.fields r.rows [] with
      | error e => simp [hne, hrep, hdec] at h
      | ok rv => simp [hne, hrep, hdec] at h; exact h.symm

/-- The divisor of a call of `real_query` that runs the completion step is the
counter of the connection it was given. -/
lemma real_query_divisor {F : Type} (lib : FloatLib F) (cl : Client) (g : Globals)
    (conn : SQLCONN) (query_format : List Char) (query_params : QUERY_PARAMS F) :
    (real_query lib cl g conn query_format query_params).divisor = some conn.queries_processed ∨
    (real_query lib cl g conn query_format query_params).divisor = none := by
  unfold real_query
  by_cases hne : query_params.length ≠ (escape_params lib cl query_params).length
  · simp [hne]
  · cases hrep : cl.execute
        (c_str (substitute query_format (escape_params lib cl query_params))) with
    | failed => simp [hne, hrep]
    | no_result => simp [hne, hrep]
    | result r =>
      cases hdec : decode_rows lib r.fields r.rows [] with
      | error e => simp [hne, hrep, hdec]
      | ok rv => simp [hne, hrep, hdec]

/-- C9 (evaluation at the failing input): the first task that the background
worker runs on a fresh pool reaches lines 320-321 with
`background_connection.queries_processed = 0`, and no first background task
divides by a positive count; a statement dispatched by `query` divides by the
counter incremented beforehand, which is at least 1 (1 for the first `query`
on a fresh pool). -/
theorem background_mean_divides_by_zero {F : Type} (lib : FloatLib F) :
    ((background_cycle lib (fun _ => accepting_client 2)
        (query_detach (Pool.fresh F) "SELECT 1".toList [])).2.map Outcome.divisor) = [some 0] ∧
    (∀ (cls : Nat → Client) (query_format : List Char) (query_params : QUERY_PARAMS F),
      ∀ out ∈ ((background_cycle lib cls
          (query_detach (Pool.fresh F) query_format query_params)).2).head?,
        out.divisor = some 0 ∨ out.divisor = none) ∧
    (query lib (accepting_client 2) (Pool.fresh F) "SELECT 1".toList []).2.2.divisor
      = some 1 ∧
    (∀ (cl : Client) (g : Globals) (conn : SQLCONN) (query_format : List Char)
      (query_params : QUERY_PARAMS F) (d : Nat), conn.queries_processed + 1 < 2 ^ 64 →
      (dispatch lib cl g conn query_format query_params).divisor = some d → 1 ≤ d) := by
  refine ⟨rfl, ?_, rfl, ?_⟩
  · intro cls query_format query_params out hout
    have hd := real_query_divisor lib (cls 0) ({} : Globals) ({} : SQLCONN)
      (c_str query_format) query_params
    simp only [background_cycle, query_detach, Pool.fresh, List.nil_append,
      background_run] at hout
    split at hout
    · simp only [List.head?_cons, Option.mem_def, Option.some.injEq] at hout
      subst hout
      exact hd
    · simp only [List.head?_cons, Option.mem_def, Option.some.injEq] at hout
      subst hout
      exact hd
  · intro cl g conn query_format query_params d hlt hd
    have := dispatch_divisor lib cl g conn query_format query_params d hd
    rw [this]
    unfold incr_u64
    omega

/-! ## `connect` -/

/-- Run of the foreground loop of `connect` up to the first handle whose
`mysql_real_connect` fails: the loop stops there, and every client call it
added is on a foreground handle of index at most `i`. -/
lemma connect_loop_breaks (thread_id : Nat) (answers : Nat → ConnectAnswers) (i : Nat)
    (hfail : (answers i).fails) :
    ∀ (left i0 : Nat) (st : ConnectState), i0 ≤ i → i < i0 + left →
      (∀ j, i0 ≤ j → j < i → ¬ (answers j).fails) →
      ∃ extra : List ClientCall,
        connect_loop thread_id answers left i0 st =
          { st with
            failed := true
            last_error := ⟨thread_id, "Database connection failed: ".toList ++ (answers i).error⟩
            calls := st.calls ++ extra } ∧
        (∀ call ∈ extra, ∃ j, j ≤ i ∧ call.handle = .foreground j) ∧
        ClientCall.mysql_real_connect (.foreground i) ∈ extra := by
  intro left
  induction left with
  | zero => intro i0 st h1 h2 _; omega
  | succ left ih =>
    intro i0 st h1 h2 hfirst
    by_cases hi : i0 = i
    · subst hi
      obtain ⟨ha, hb, hc⟩ := hfail
      refine ⟨[.mysql_init (.foreground i0), .mysql_options_charset (.foreground i0),
        .mysql_options_init_command (.foreground i0), .mysql_options_reconnect (.foreground i0),
        .mysql_real_connect (.foreground i0)], ?_, ?_, by simp⟩
      · simp [connect_loop, ha, hb, hc]
      · intro call hcall
        refine ⟨i0, le_refl _, ?_⟩
        simp only [List.mem_cons, List.mem_singleton, List.not_mem_nil, or_false] at hcall
        rcases hcall with h | h | h | h | h <;> (subst h; rfl)
    · have hnot := hfirst i0 (le_refl _) (by omega)
      have hrec : ∀ st' : ConnectState, ∃ extra : List ClientCall,
          connect_loop thread_id answers left (i0 + 1) st' =
            { st' with
              failed := true
              last_error :=
                ⟨thread_id, "Database connection failed: ".toList ++ (answers i).error⟩
              calls := st'.calls ++ extra } ∧
          (∀ call ∈ extra, ∃ j, j ≤ i ∧ call.handle = .foreground j) ∧
          ClientCall.mysql_real_connect (.foreground i) ∈ extra :=
        fun st' => ih (i0 + 1) st' (by omega) (by omega)
          (fun j hj1 hj2 => hfirst j (by omega) hj2)
      have hle : i0 ≤ i := h1
      unfold connect_loop
      by_cases ha : (answers i0).init_ok = true
      · by_cases hb : (answers i0).reconnect_ok = true
        · have hc : (answers i0).connect_ok = true := by
            by_contra hc
            exact hnot ⟨ha, hb, by simpa using hc⟩
          obtain ⟨extra, he, hall, hmem⟩ := hrec
            { st with calls := st.calls ++ [.mysql_init (.foreground i0)] ++
              [.mysql_options_charset (.foreground i0),
                .mysql_options_init_command (.foreground i0),
                .mysql_options_reconnect (.foreground i0)] ++
              [.mysql_real_connect (.foreground i0)] }
          refine ⟨[.mysql_init (.foreground i0), .mysql_options_charset (.foreground i0),
            .mysql_options_init_command (.foreground i0),
            .mysql_options_reconnect (.foreground i0),
            .mysql_real_connect (.foreground i0)] ++ extra, ?_, ?_, by simp [hmem]⟩
          · simp only [ha, hb, hc, if_true]
            try simp only [Bool.not_eq_true, Bool.true_eq_false, if_false]
            rw [he]; simp
          · intro call hcall
            rcases List.mem_append.mp hcall with h | h
            · refine ⟨i0, hle, ?_⟩
              simp only [List.mem_cons, List.mem_singleton, List.not_mem_nil, or_false] at h
              rcases h with h | h | h | h | h <;> (subst h; rfl)
            · exact hall call h
        · obtain ⟨extra, he, hall, hmem⟩ := hrec
            { st with calls := st.calls ++ [.mysql_init (.foreground i0)] ++
              [.mysql_options_charset (.foreground i0),
                .mysql_options_init_command (.foreground i0),
                .mysql_options_reconnect (.foreground i0)] }
          refine ⟨[.mysql_init (.foreground i0), .mysql_options_charset (.foreground i0),
            .mysql_options_init_command (.foreground i0),
            .mysql_options_reconnect (.foreground i0)] ++ extra, ?_, ?_, by simp [hmem]⟩
          · simp only [ha, hb, if_true]
            try simp only [Bool.false_eq_true, if_false]
            rw [he]; simp
          · intro call hcall
            rcases List.mem_append.mp hcall with h | h
            · refine ⟨i0, hle, ?_⟩
              simp only [List.mem_cons, List.mem_singleton, List.not_mem_nil, or_false] at h
              rcases h with h | h | h | h <;> (subst h; rfl)
            · exact hall call h
      · obtain ⟨extra, he, hall, hmem⟩ := hrec
          { st with calls := st.calls ++ [.mysql_init (.foreground i0)] }
        refine ⟨[.mysql_init (.foreground i0)] ++ extra, ?_, ?_, by simp [hmem]⟩
        · simp only [ha]
          try simp only [Bool.false_eq_true, if_false]
          rw [he]; simp
        · intro call hcall
          rcases List.mem_append.mp hcall with h | h
          · refine ⟨i0, hle, ?_⟩
            simp only [List.mem_cons, List.mem_singleton, List.not_mem_nil, or_false] at h
            subst h; rfl
          · exact hall call h

@[simp] lemma handle_mysql_init (h : Handle) : (ClientCall.mysql_init h).handle = h := rfl

@[simp] lemma handle_mysql_options_charset (h : Handle) :
    (ClientCall.mysql_options_charset h).handle = h := rfl

@[simp] lemma handle_mysql_options_init_command (h : Handle) :
    (ClientCall.mysql_options_init_command h).handle = h := rfl

@[simp] lemma handle_mysql_options_reconnect (h : Handle) :
    (ClientCall.mysql_options_reconnect h).handle = h := rfl

@[simp] lemma handle_mysql_real_connect (h : Handle) :
    (ClientCall.mysql_real_connect h).handle = h := rfl

/-- What `connect` does after its foreground loop, in terms of the state `st`
in which the loop ended. -/
lemma connect_after_loop (thread_id : Nat) (answers : Nat → ConnectAnswers)
    (bg : ConnectAnswers) (last_error : SQLCONN_LAST_ERROR) :
    (connect thread_id answers bg last_error).2.last_error
      = (connect_loop thread_id answers POOL_SIZE 0 { last_error := last_error }).last_error ∧
    ((connect_loop thread_id answers POOL_SIZE 0 { last_error := last_error }).failed = true →
      (connect thread_id answers bg last_error).1 = false) ∧
    (∀ call ∈ (connect thread_id answers bg last_error).2.calls,
      call ∈ (connect_loop thread_id answers POOL_SIZE 0 { last_error := last_error }).calls ∨
        call.handle = .background) ∧
    (∀ call ∈ (connect_loop thread_id answers POOL_SIZE 0 { last_error := last_error }).calls,
      call ∈ (connect thread_id answers bg last_error).2.calls) ∧
    ClientCall.mysql_init .background ∈ (connect thread_id answers bg last_error).2.calls := by
  unfold connect
  generalize connect_loop thread_id answers POOL_SIZE 0 { last_error := last_error } = st
  obtain ⟨a, b, c, e⟩ := bg
  cases a <;> cases b <;> cases hf : st.failed <;> simp [hf] <;> aesop

/-- C6 (counterexample): when foreground connection 0 fails to connect and
every other handle would succeed, `connect` makes no client call on
connections 1..15: after the failing `mysql_real_connect` it goes straight to
the background handle. -/
theorem connect_aborts_foreground_loop :
    (first_refused 0).fails ∧
    (connect 7 first_refused all_fine {}).2.calls =
      [.mysql_init (.foreground 0), .mysql_options_charset (.foreground 0),
        .mysql_options_init_command (.foreground 0), .mysql_options_reconnect (.foreground 0),
        .mysql_real_connect (.foreground 0),
        .mysql_init .background, .mysql_options_charset .background,
        .mysql_options_init_command .background, .mysql_options_reconnect .background] ∧
    ¬ (∀ j, 0 < j → j < POOL_SIZE →
        ClientCall.mysql_init (.foreground j) ∈ (connect 7 first_refused all_fine {}).2.calls ∧
        ClientCall.mysql_real_connect (.foreground j)
          ∈ (connect 7 first_refused all_fine {}).2.calls) := by
  have hcalls : (connect 7 first_refused all_fine {}).2.calls =
      [.mysql_init (.foreground 0), .mysql_options_charset (.foreground 0),
        .mysql_options_init_command (.foreground 0), .mysql_options_reconnect (.foreground 0),
        .mysql_real_connect (.foreground 0),
        .mysql_init .background, .mysql_options_charset .background,
        .mysql_options_init_command .background, .mysql_options_reconnect .background] := by
    decide
  refine ⟨⟨rfl, rfl, rfl⟩, hcalls, ?_⟩
  intro h
  have h1 := (h 1 (by decide) (by decide)).1
  rw [hcalls] at h1
  revert h1
  decide

/-- C6 (amended): for every assignment of client answers in which some
foreground connection fails to connect, with `i` the first such connection,
`connect` records the failure in the error slot, returns false, and leaves the
foreground loop at `i`: no client call is made on a foreground connection
`j > i`, while connection `i` was tried and the background handle is still
initialised. -/
theorem connect_stops_at_first_failure (thread_id : Nat) (answers : Nat → ConnectAnswers)
    (bg : ConnectAnswers) (last_error : SQLCONN_LAST_ERROR) (i : Nat)
    (hi : i < POOL_SIZE) (hfail : (answers i).fails)
    (hfirst : ∀ j, j < i → ¬ (answers j).fails) :
    (connect thread_id answers bg last_error).1 = false ∧
    (connect thread_id answers bg last_error).2.last_error
      = ⟨thread_id, "Database connection failed: ".toList ++ (answers i).error⟩ ∧
    (∀ call ∈ (connect thread_id answers bg last_error).2.calls,
      ∀ j, i < j → call.handle ≠ .foreground j) ∧
    ClientCall.mysql_real_connect (.foreground i)
      ∈ (connect thread_id answers bg last_error).2.calls ∧
    ClientCall.mysql_init .background ∈ (connect thread_id answers bg last_error).2.calls := by
  obtain ⟨extra, he, hall, hmem⟩ := connect_loop_breaks thread_id answers i hfail POOL_SIZE 0
    { last_error := last_error } (Nat.zero_le _) (by omega) (fun j _ hj => hfirst j hj)
  obtain ⟨h1, h2, h3, h4, h5⟩ := connect_after_loop thread_id answers bg last_error
  rw [he] at h1 h2 h3 h4
  refine ⟨h2 rfl, h1, ?_, h4 _ (by simpa using hmem), h5⟩
  intro call hc j hj heq
  rcases h3 call hc with h | h
  · have : call ∈ extra := by simpa using h
    obtain ⟨j', hj', hh⟩ := hall call this
    rw [hh] at heq
    injection heq with heq
    omega
  · rw [h] at heq
    cases heq

/-- Witness for the amended C6: connection 0 is refused. -/
theorem connect_stops_at_first_failure_witness :
    (0 < POOL_SIZE ∧ (first_refused 0).fails ∧ (∀ j, j < 0 → ¬ (first_refused j).fails)) ∧
    (connect 7 first_refused all_fine {}).1 = false ∧
    (connect 7 first_refused all_fine {}).2.last_error
      = ⟨7, "Database connection failed: ".toList ++ (first_refused 0).error⟩ ∧
    (∀ call ∈ (connect 7 first_refused all_fine {}).2.calls,
      ∀ j, 0 < j → call.handle ≠ .foreground j) ∧
    ClientCall.mysql_real_connect (.foreground 0)
      ∈ (connect 7 first_refused all_fine {}).2.calls ∧
    ClientCall.mysql_init .background ∈ (connect 7 first_refused all_fine {}).2.calls :=
  ⟨⟨by decide, ⟨rfl, rfl, rfl⟩, fun j hj => absurd hj (Nat.not_lt_zero j)⟩,
    connect_stops_at_first_failure 7 first_refused all_fine {} 0 (by decide) ⟨rfl, rfl, rfl⟩
      (fun j hj => absurd hj (Nat.not_lt_zero j))⟩

end mysqlcxx
